import Mathlib

/-!
Verification development for the reinforcement-learning core
(`src/reinforcement_learning/ppo_agent.py` and
`src/reinforcement_learning/multi_policy.py`).

Numeric scalars (rewards, probabilities, parameters) are modelled as
rationals; neural-network forward passes, gradient steps and random
sampling are abstracted as explicit function parameters, since their
numeric content lives in the external tensor library, not in this
repository.  Every definition below mirrors a specific function of the
source files; line references are given in the doc comments.
-/

/-- A recorded transition, mirroring the tuple
`(state, action, reward, next_state, action_log_prob, done)` built in
`PPOAgent.step` (ppo_agent.py line 129). -/
structure Transition where
  state : List ℚ
  action : ℤ
  reward : ℚ
  next_state : List ℚ
  action_log_prob : ℚ
  done : Bool
deriving DecidableEq

/-- Hyperparameter `self.gamma = 0.99` (ppo_agent.py line 99). -/
def gammaDefault : ℚ := 99 / 100

/-- Hyperparameter `self.K_epoch = 30` (ppo_agent.py line 101). -/
def K_epoch : ℕ := 30

/-- The discounted-return computation of
`PPOAgent._convert_transitions_to_torch_tensors` (ppo_agent.py lines
136-149): walk the transition list in reverse with a running
`discounted_reward` initialised to `0`; at a transition with
`done = True` the code executes `discounted_reward = 0` and then stores
that value, otherwise it executes
`discounted_reward = reward + gamma * discounted_reward` and stores the
result; `insert(0, ...)` rebuilds chronological order, which the
`foldr` reproduces. -/
def discountedRewards (gamma : ℚ) (ts : List Transition) : List ℚ :=
  (ts.foldr
    (fun t acc =>
      let dr : ℚ := if t.done then 0 else t.reward + gamma * acc.1
      (dr, dr :: acc.2))
    ((0 : ℚ), ([] : List ℚ))).2

/-- The return claimed by the spec recurrence: `reward` at a `done`
step, otherwise `reward + gamma * next`.  Used only to state the
divergence from `discountedRewards`. -/
def specDiscountedReturns (gamma : ℚ) (ts : List Transition) : List ℚ :=
  (ts.foldr
    (fun t acc =>
      let dr : ℚ := if t.done then t.reward else t.reward + gamma * acc.1
      (dr, dr :: acc.2))
    ((0 : ℚ), ([] : List ℚ))).2

/-- A concrete transition with reward 5 and `done = True`. -/
def doneTransitionEx : Transition :=
  { state := [0], action := 0, reward := 5, next_state := [0],
    action_log_prob := 0, done := true }

/-- A concrete non-terminal transition with reward 1. -/
def midTransitionEx : Transition :=
  { state := [0], action := 0, reward := 1, next_state := [0],
    action_log_prob := 0, done := false }

/-- The `DataBuffers` trajectory store (ppo_agent.py lines 16-33):
`self.memory` is a Python dict from agent handle to a list of
transitions, modelled as an association list with distinct keys in
insertion order (Python dicts preserve insertion order). -/
structure DataBuffers where
  memory : List (ℕ × List Transition)
deriving DecidableEq

/-- `DataBuffers.reset` (line 24-25): `self.memory = {}`. -/
def DataBuffers.reset : DataBuffers := ⟨[]⟩

/-- `DataBuffers.__len__` (lines 20-22): `len(self.memory)`, the number
of distinct handles. -/
def DataBuffers.len (b : DataBuffers) : ℕ := b.memory.length

/-- `DataBuffers.get_transitions` (lines 27-28):
`self.memory.get(handle, [])`. -/
def DataBuffers.get_transitions (b : DataBuffers) (handle : ℕ) :
    List Transition :=
  (b.memory.lookup handle).getD []

/-- `dict.update({handle: transitions})`: replace the value of an
existing key in place, or append a new key at the end (Python dict
insertion-order semantics). -/
def dictUpdate (m : List (ℕ × List Transition)) (handle : ℕ)
    (v : List Transition) : List (ℕ × List Transition) :=
  if m.any (fun e => e.1 == handle) then
    m.map (fun e => if e.1 == handle then (handle, v) else e)
  else
    m ++ [(handle, v)]

/-- `DataBuffers.push_transition` (lines 30-33): append the transition
to the handle's list (creating it if absent) and store it back. -/
def DataBuffers.push_transition (b : DataBuffers) (handle : ℕ)
    (t : Transition) : DataBuffers :=
  ⟨dictUpdate b.memory handle (b.get_transitions handle ++ [t])⟩

/-- The set of handles the training loop of `PPOAgent.train_net`
actually visits in one epoch and does not skip (ppo_agent.py lines
171-174): `for handle in range(len(self.memory))`, keeping those with
`len(agent_episode_history) > 0`.  Note the iteration is over
`range(len(...))`, not over the dict's keys. -/
def optimizedHandles (b : DataBuffers) : List ℕ :=
  (List.range b.len).filter (fun h => (b.get_transitions h).length > 0)

/-- The mutable state of a `PPOAgent` that the training loop touches,
with the actor-critic parameters and optimizer state abstracted into a
single value of type `M` (their numeric content lives in the tensor
library).  `loss` mirrors `self.loss` (ppo_agent.py line 107). -/
structure PPOState (M : Type) where
  memory : DataBuffers
  model : M
  loss : ℚ

/-- The body of the inner loop of `PPOAgent.train_net` (ppo_agent.py
lines 172-204) for one handle: fetch the handle's episode history, and
if it is non-empty run the gradient-step computation — abstracted as
`update`, which consumes the model-and-optimizer state and the
transitions and returns the new state and the mean loss — then store
the loss in `self.loss`.  The trajectory store itself is not written. -/
def trainNetHandle {M : Type} (update : M → List Transition → M × ℚ)
    (s : PPOState M) (handle : ℕ) : PPOState M :=
  let hist := s.memory.get_transitions handle
  if hist.length > 0 then
    let r := update s.model hist
    { s with model := r.1, loss := r.2 }
  else s

/-- One epoch of `PPOAgent.train_net` (ppo_agent.py line 171):
`for handle in range(len(self.memory))`. -/
def trainNetEpoch {M : Type} (update : M → List Transition → M × ℚ)
    (s : PPOState M) : PPOState M :=
  (List.range s.memory.len).foldl (trainNetHandle update) s

/-- `PPOAgent.train_net` (ppo_agent.py lines 167-207): `K_epoch`
epochs over the buffered handles, then `self.memory.reset()`. -/
def trainNet {M : Type} (update : M → List Transition → M × ℚ)
    (s : PPOState M) : PPOState M :=
  let sK := (List.range K_epoch).foldl (fun acc _ => trainNetEpoch update acc) s
  { sK with memory := DataBuffers.reset }

/-- `PPOAgent.end_episode` (ppo_agent.py lines 209-211): call
`train_net` when `train` is true, otherwise do nothing. -/
def PPOAgent.end_episode {M : Type} (update : M → List Transition → M × ℚ)
    (train : Bool) (s : PPOState M) : PPOState M :=
  if train then trainNet update s else s

/-- A store holding a single transition under the non-contiguous
handle `5` (allowed by the spec's data model). -/
def bufferHandle5 : DataBuffers :=
  DataBuffers.reset.push_transition 5 midTransitionEx

/-- A parameter blob: a serialized `state_dict`, modelled as the flat
list of the network's parameters. -/
def Blob : Type := List ℚ
deriving instance DecidableEq for Blob

/-- The file system visible to checkpointing, as a list of
`(path, blob)` pairs; a later write shadows an earlier one, so writing
prepends. -/
def FS : Type := List (String × Blob)
deriving instance DecidableEq for FS

/-- `torch.save(obj, path)`: write the blob at the path. -/
def fsWrite (fs : FS) (path : String) (b : Blob) : FS := (path, b) :: fs

/-- `os.path.exists` + `torch.load`: the blob at the path, if any. -/
def fsRead (fs : FS) (path : String) : Option Blob := List.lookup path fs

/-- `obj.load_state_dict(blob)`: succeeds exactly when the blob's
shape matches the target's (same number of parameters), returning the
new parameters; an incompatible blob raises, modelled as `error`. -/
def load_state_dict (current : Blob) (b : Blob) : Except Unit Blob :=
  if List.length b = List.length current then Except.ok b else Except.error ()

/-- The `_load` helper, duplicated verbatim in `ActorCriticModel._load`
(ppo_agent.py lines 78-85) and `PPOAgent._load` (lines 219-226): if the
file does not exist, return `obj` unchanged; if it exists, try
`load_state_dict` and on any exception (bare `except`) swallow it and
return `obj` unchanged. -/
def loadArtifact (obj : Blob) (fs : FS) (filename : String) : Blob :=
  match fsRead fs filename with
  | none => obj
  | some b =>
    match load_state_dict obj b with
    | Except.ok newObj => newObj
    | Except.error _ => obj

/-- The parameters of `ActorCriticModel` (ppo_agent.py lines 36-55):
two disjoint parameter sets, one for the actor network and one for the
critic network. -/
structure ActorCriticModel where
  actor : Blob
  critic : Blob
deriving DecidableEq

/-- `ActorCriticModel.save` (ppo_agent.py lines 73-76):
`torch.save(actor.state_dict(), filename + ".actor")` and
`torch.save(critic.state_dict(), filename + ".value")` — note the
critic artifact's suffix is `".value"` in the source. -/
def ActorCriticModel.save (m : ActorCriticModel) (fs : FS)
    (filename : String) : FS :=
  fsWrite (fsWrite fs (filename ++ ".actor") m.actor)
    (filename ++ ".value") m.critic

/-- `ActorCriticModel.load` (ppo_agent.py lines 87-90): reload the
actor from `filename + ".actor"` and the critic from
`filename + ".critic"`, each through the exception-tolerant helper. -/
def ActorCriticModel.load (m : ActorCriticModel) (fs : FS)
    (filename : String) : ActorCriticModel :=
  { actor := loadArtifact m.actor fs (filename ++ ".actor"),
    critic := loadArtifact m.critic fs (filename ++ ".critic") }

/-- The checkpointable state of a `PPOAgent`: its model and its Adam
optimizer state (ppo_agent.py lines 108-109), the latter as a blob. -/
structure PPOCheckpoint where
  actor_critic_model : ActorCriticModel
  optimizer : Blob
deriving DecidableEq

/-- `PPOAgent.save` (ppo_agent.py lines 214-217): save the model, then
`torch.save(optimizer.state_dict(), filename + ".optimizer")`. -/
def PPOAgent.save (a : PPOCheckpoint) (fs : FS) (filename : String) : FS :=
  fsWrite (a.actor_critic_model.save fs filename)
    (filename ++ ".optimizer") a.optimizer

/-- `PPOAgent.load` (ppo_agent.py lines 228-232): reload the model,
then the optimizer state from `filename + ".optimizer"`. -/
def PPOAgent.load (a : PPOCheckpoint) (fs : FS)
    (filename : String) : PPOCheckpoint :=
  { actor_critic_model := a.actor_critic_model.load fs filename,
    optimizer := loadArtifact a.optimizer fs (filename ++ ".optimizer") }

/-- The paths an agent-level `save(P)` writes, in write order
(derived from `PPOAgent.save` applied to an empty file system). -/
def savedPaths (a : PPOCheckpoint) (filename : String) : List String :=
  (PPOAgent.save a [] filename).map (fun e => e.1)

/-- The paths an agent-level `load(P)` reads (the three `fsRead` calls
made by `PPOAgent.load`). -/
def loadedPaths (filename : String) : List String :=
  [filename ++ ".actor", filename ++ ".critic", filename ++ ".optimizer"]

/-- `ActorCriticModel.get_actor_dist` (ppo_agent.py lines 60-63): the
categorical action distribution `Categorical(self.actor(state))`,
fully determined by the actor parameters and the input state; the
actor network's forward pass is the external-library function `fw`. -/
def get_actor_dist (fw : Blob → List ℚ → List ℚ)
    (m : ActorCriticModel) (state : List ℚ) : List ℚ :=
  fw m.actor state

/-- A concrete checkpointable agent used in concrete instances. -/
def agentEx : PPOCheckpoint :=
  { actor_critic_model := { actor := [1, 2], critic := [3] },
    optimizer := [4] }

/-- A second, freshly-initialised agent of the same architecture. -/
def freshAgentEx : PPOCheckpoint :=
  { actor_critic_model := { actor := [7, 8], critic := [9] },
    optimizer := [10] }

/-- `PPOAgent.act` (ppo_agent.py lines 115-120): build the actor's
categorical distribution at the state via `get_actor_dist`, sample an
action from it, and return it.  The parameter `eps` mirrors the unused
keyword argument `eps=None`; `sample` is the external library's
categorical sampling with its random draw fixed. -/
def PPOAgent.act (fw : Blob → List ℚ → List ℚ) (sample : List ℚ → ℕ)
    (m : ActorCriticModel) (state : List ℚ) (eps : Option ℚ) : ℕ :=
  sample (get_actor_dist fw m state)

/-- The one-hot extension loop of `MultiPolicy.act` and
`MultiPolicy.step` (multi_policy.py lines 41-43 and 29-34): starting
from a copy of the raw state, for each `action_itr` in
`0 .. action_size - 1` append `int(action_extra_state == action_itr)`. -/
def extendState (action_size : ℕ) (advisor_action : ℕ)
    (state : List ℚ) : List ℚ :=
  state ++
    (List.range action_size).map
      (fun a => if advisor_action = a then (1 : ℚ) else 0)

/-- The advisor ("deadlock avoidance") policy interface (spec §6,
external collaborator, class not part of the given sources):
`act(handle, state, exploration_rate) -> action` over an abstract
advisor state `A`, treated as a black box. -/
structure AdvisorPolicy (A : Type) where
  act : A → ℕ → List ℚ → ℚ → ℕ

/-- Modelled from the spec: the inner PPO core owned by `MultiPolicy`
is imported from `reinforcement_learning.ppo.ppo_agent`, a module not
among the given sources.  Per spec §4.3 its `act` samples from the
actor's distribution without mutating the core's state, and per §4.3
step 10 the core exposes a diagnostic mean-loss value; both are
modelled over an abstract core state `P`. -/
structure InnerPPO (P : Type) where
  act : P → ℕ → List ℚ → ℚ → ℕ
  loss : P → ℚ

/-- The fields of `MultiPolicy` (multi_policy.py lines 9-15) over
abstract advisor and core states. -/
structure MultiPolicyState (A P : Type) where
  state_size : ℕ
  action_size : ℕ
  memory : List ℚ
  loss : ℚ
  deadlock_avoidance_policy : A
  ppo_policy : P

/-- `MultiPolicy.act` (multi_policy.py lines 39-46): query the advisor
at the raw state with exploration `0.0`, build the one-hot-extended
state, delegate to the inner core's `act` on it with the caller's
`eps`, store the core's `loss` into `self.loss`, and return the core's
action.  Returns the updated layer state and the chosen action. -/
def MultiPolicy.act {A P : Type} (advisor : AdvisorPolicy A)
    (core : InnerPPO P) (s : MultiPolicyState A P) (handle : ℕ)
    (state : List ℚ) (eps : ℚ) : MultiPolicyState A P × ℕ :=
  let action_extra_state := advisor.act s.deadlock_avoidance_policy handle state 0
  let extended_state := extendState s.action_size action_extra_state state
  let action_ppo := core.act s.ppo_policy handle extended_state eps
  ({ s with loss := core.loss s.ppo_policy }, action_ppo)

/-- A tag for the two sub-policies owned by `MultiPolicy`. -/
inductive SubPolicy where
  | advisor
  | ppo
deriving DecidableEq

/-- Call order of `MultiPolicy.load` (multi_policy.py lines 17-19):
`self.ppo_policy.load(...)` then
`self.deadlock_avoidance_policy.load(...)`. -/
def MultiPolicy.loadOrder : List SubPolicy :=
  [SubPolicy.ppo, SubPolicy.advisor]

/-- Call order of `MultiPolicy.save` (multi_policy.py lines 21-23):
PPO core first, then advisor. -/
def MultiPolicy.saveOrder : List SubPolicy :=
  [SubPolicy.ppo, SubPolicy.advisor]

/-- Call order of `MultiPolicy.reset` (multi_policy.py lines 48-50):
PPO core first, then advisor. -/
def MultiPolicy.resetOrder : List SubPolicy :=
  [SubPolicy.ppo, SubPolicy.advisor]

/-- Call order of `MultiPolicy.test` (multi_policy.py lines 52-54):
PPO core first, then advisor. -/
def MultiPolicy.testOrder : List SubPolicy :=
  [SubPolicy.ppo, SubPolicy.advisor]

/-- Call order of `MultiPolicy.start_step` (multi_policy.py lines
56-58): advisor first, then PPO core. -/
def MultiPolicy.start_stepOrder : List SubPolicy :=
  [SubPolicy.advisor, SubPolicy.ppo]

/-- Call order of `MultiPolicy.end_step` (multi_policy.py lines
60-62): advisor first, then PPO core. -/
def MultiPolicy.end_stepOrder : List SubPolicy :=
  [SubPolicy.advisor, SubPolicy.ppo]

/-- A concrete advisor that always suggests action `1`. -/
def advisorEx : AdvisorPolicy Unit := ⟨fun _ _ _ _ => 1⟩

/-- Claim C1: the code stores `0` as the discounted return of a
transition with `done = True` (it resets the running return *before*
storing), so a terminal step's return is `0`, not its own reward, and
the terminal reward never contributes to any earlier step's return.
On the trajectory `[reward 1 (not done), reward 5 (done)]` the code
produces returns `[1, 0]`, while the spec recurrence demands
`[1 + 0.99 * 5, 5] = [5.95, 5]`. -/
theorem discountedRewards_drops_terminal_reward :
    discountedRewards gammaDefault [doneTransitionEx] = [0] ∧
    doneTransitionEx.reward = 5 ∧ (0 : ℚ) ≠ 5 ∧
    discountedRewards gammaDefault [midTransitionEx, doneTransitionEx] = [1, 0] ∧
    specDiscountedReturns gammaDefault [midTransitionEx, doneTransitionEx] =
      [119 / 20, 5] := by
  refine ⟨?_, rfl, by norm_num, ?_, ?_⟩ <;>
    simp [discountedRewards, specDiscountedReturns, midTransitionEx,
      doneTransitionEx, gammaDefault] <;> norm_num

/-- Claim C3: the inner loop of `train_net` iterates
`for handle in range(len(self.memory))`, i.e. over `0 .. len-1`, not
over the dict's keys.  For a store whose only handle is `5` (one
buffered transition), the loop visits only handle `0`, which has no
transitions and is skipped, so no handle is optimized in any epoch:
running `train_net` with an instrumented update function that counts
invocations shows the gradient-step computation never runs. -/
theorem trainNet_misses_noncontiguous_handle :
    optimizedHandles bufferHandle5 = [] ∧
    bufferHandle5.get_transitions 5 ≠ [] ∧
    bufferHandle5.len = 1 ∧
    (trainNet (fun (m : ℕ) _ => (m + 1, 0))
      { memory := bufferHandle5, model := 0, loss := 0 }).model = 0 := by
  refine ⟨by decide, by decide, by decide, ?_⟩
  decide

/-- Claim C5: `end_episode(train=True)` runs `train_net`, which resets
the trajectory store unconditionally after its epochs, so the store
reports zero handles afterwards; `end_episode(train=False)` does
nothing, leaving the whole agent state (trajectory store and all
buffered transitions included) unchanged. -/
theorem end_episode_clears_or_preserves_store (M : Type)
    (update : M → List Transition → M × ℚ) (s : PPOState M) :
    (PPOAgent.end_episode update true s).memory.len = 0 ∧
    PPOAgent.end_episode update false s = s := by
  exact ⟨rfl, rfl⟩

/-- Appending a fixed prefix to strings is injective. -/
theorem string_append_left_cancel {p s t : String} (h : p ++ s = p ++ t) :
    s = t := by
  have hd : p.data ++ s.data = p.data ++ t.data := by
    have := congrArg String.data h
    simpa [String.data_append] using this
  exact String.ext (List.append_cancel_left hd)

/-- Reading back the path just written yields the written blob. -/
theorem fsRead_fsWrite_self (fs : FS) (q : String) (b : Blob) :
    fsRead (fsWrite fs q b) q = some b := by
  simp [fsRead, fsWrite, List.lookup]

/-- Writing one path does not disturb reads of another. -/
theorem fsRead_fsWrite_ne (fs : FS) (q r : String) (b : Blob)
    (h : r ≠ q) : fsRead (fsWrite fs q b) r = fsRead fs r := by
  have hbe : (r == q) = false := beq_eq_false_iff_ne.mpr h
  simp [fsRead, fsWrite, List.lookup, hbe]

/-- Claim C2: `save(P)` followed by a fresh agent's `load(P)` restores
the saved actor parameters exactly (the `".actor"` artifact
round-trips), so the fresh agent's action distribution at any state
equals the saved agent's, for every actor forward pass `fw`.  The
hypothesis states that the fresh agent has the saved agent's
architecture (same actor parameter count). -/
theorem save_load_roundtrip_actor_dist (fw : Blob → List ℚ → List ℚ)
    (saved fresh : PPOCheckpoint) (fs : FS) (p : String) (st : List ℚ)
    (h : List.length fresh.actor_critic_model.actor
        = List.length saved.actor_critic_model.actor) :
    get_actor_dist fw
        ((PPOAgent.load fresh (PPOAgent.save saved fs p) p).actor_critic_model)
        st
      = get_actor_dist fw saved.actor_critic_model st := by
  have hov : p ++ ".actor" ≠ p ++ ".optimizer" := by
    intro hc
    exact absurd (string_append_left_cancel hc) (by decide)
  have hvv : p ++ ".actor" ≠ p ++ ".value" := by
    intro hc
    exact absurd (string_append_left_cancel hc) (by decide)
  have hread :
      fsRead (PPOAgent.save saved fs p) (p ++ ".actor")
        = some saved.actor_critic_model.actor := by
    rw [PPOAgent.save, fsRead_fsWrite_ne _ _ _ _ hov]
    rw [ActorCriticModel.save, fsRead_fsWrite_ne _ _ _ _ hvv]
    exact fsRead_fsWrite_self _ _ _
  show fw (loadArtifact fresh.actor_critic_model.actor
      (PPOAgent.save saved fs p) (p ++ ".actor")) st = _
  simp only [loadArtifact, hread, load_state_dict]
  rw [if_pos h.symm]
  rfl

/-- Concrete instance of `save_load_roundtrip_actor_dist`: saving
`agentEx` at base path `"ckpt"` on an empty file system and loading
into `freshAgentEx` reproduces `agentEx`'s action distribution. -/
theorem save_load_roundtrip_actor_dist_witness :
    List.length freshAgentEx.actor_critic_model.actor
        = List.length agentEx.actor_critic_model.actor ∧
    get_actor_dist (fun b _ => b)
        ((PPOAgent.load freshAgentEx (PPOAgent.save agentEx [] "ckpt")
          "ckpt").actor_critic_model) [0]
      = get_actor_dist (fun b _ => b) agentEx.actor_critic_model [0] :=
  ⟨rfl, save_load_roundtrip_actor_dist (fun b _ => b) agentEx freshAgentEx
    [] "ckpt" [0] rfl⟩

/-- Claim C4: for base path `"model"`, `save` writes the artifacts
`model.actor`, `model.value` and `model.optimizer` — not
`model.critic` as the claim states — while `load` reads `model.actor`,
`model.critic` and `model.optimizer`; in particular the path the
loader uses for the critic is never written by `save`. -/
theorem save_writes_value_suffix_not_critic :
    savedPaths agentEx "model"
        = ["model.optimizer", "model.value", "model.actor"] ∧
    loadedPaths "model"
        = ["model.actor", "model.critic", "model.optimizer"] ∧
    ¬ ("model.critic" ∈ savedPaths agentEx "model") ∧
    fsRead (PPOAgent.save agentEx [] "model") ("model" ++ ".critic")
        = none := by
  refine ⟨by decide, by decide, by decide, by decide⟩

/-- Claim C8: the exception-tolerant load helper (shared verbatim by
`ActorCriticModel._load` and `PPOAgent._load`) is a total function: on
a missing path it returns the current parameters unchanged, and on a
present-but-incompatible blob the raised exception is swallowed and
the current parameters are returned unchanged. -/
theorem loadArtifact_tolerates_missing_or_incompatible
    (obj : Blob) (fs : FS) (path : String)
    (h : fsRead fs path = none ∨
        ∃ b, fsRead fs path = some b ∧
          load_state_dict obj b = Except.error ()) :
    loadArtifact obj fs path = obj := by
  rcases h with h | ⟨b, hb, he⟩
  · rw [loadArtifact, h]
  · simp [loadArtifact, hb, he]

/-- Concrete instance of
`loadArtifact_tolerates_missing_or_incompatible`: a missing path and a
wrong-shape blob each leave the parameters `[1]` unchanged. -/
theorem loadArtifact_tolerates_witness :
    loadArtifact ([1] : Blob) ([] : FS) "missing" = ([1] : Blob) ∧
    loadArtifact ([1] : Blob) ([("bad", [2, 3])] : FS) "bad"
        = ([1] : Blob) :=
  ⟨loadArtifact_tolerates_missing_or_incompatible [1] [] "missing"
      (Or.inl rfl),
    loadArtifact_tolerates_missing_or_incompatible [1] [("bad", [2, 3])]
      "bad" (Or.inr ⟨[2, 3], rfl, rfl⟩)⟩

/-- The entry of the one-hot tail at a position inside its range. -/
theorem onehot_getD (n adv j : ℕ) (hj : j < n) :
    (((List.range n).map (fun a => if adv = a then (1 : ℚ) else 0)).getD j 0)
      = if adv = j then 1 else 0 := by
  rw [List.getD_eq_getElem?_getD, List.getElem?_map, List.getElem?_range hj]
  rfl

/-- The one-hot tail contains the value `1` exactly once when the hot
index lies in range. -/
theorem onehot_count_one (n adv : ℕ) (h : adv < n) :
    ((List.range n).map (fun a => if adv = a then (1 : ℚ) else 0)).count 1
      = 1 := by
  induction n with
  | zero => omega
  | succ m ih =>
    rw [List.range_succ, List.map_append, List.count_append]
    rcases Nat.lt_succ_iff_lt_or_eq.mp h with h2 | h2
    · rw [ih h2]
      have hne : adv ≠ m := Nat.ne_of_lt h2
      simp [hne]
    · subst h2
      have hz : ((List.range adv).map
          (fun a => if adv = a then (1 : ℚ) else 0)).count 1 = 0 := by
        rw [List.count_eq_zero]
        intro hx
        simp only [List.mem_map, List.mem_range] at hx
        obtain ⟨a, ha, hfa⟩ := hx
        by_cases hc : adv = a
        · omega
        · simp [hc] at hfa
      simp [hz]

/-- Claim C6: the augmented state `MultiPolicy.act` hands to the inner
PPO core — `extendState` applied to the advisor's suggestion at the
raw state under zero exploration — has length
`state_size + action_size`, starts with the raw state, and ends in a
one-hot block whose unique `1` sits at the advisor's suggested action,
provided that suggestion is a valid action index. -/
theorem augmented_state_one_hot {A : Type} (advisor : AdvisorPolicy A)
    (a : A) (action_size state_size handle : ℕ) (state : List ℚ)
    (hs : state.length = state_size)
    (ha : advisor.act a handle state 0 < action_size) :
    (extendState action_size (advisor.act a handle state 0) state).length
        = state_size + action_size ∧
    (extendState action_size (advisor.act a handle state 0) state).take
        state_size = state ∧
    ((extendState action_size (advisor.act a handle state 0) state).drop
        state_size).getD (advisor.act a handle state 0) 0 = 1 ∧
    (∀ j, j < action_size → j ≠ advisor.act a handle state 0 →
      ((extendState action_size (advisor.act a handle state 0) state).drop
        state_size).getD j 0 = 0) ∧
    ((extendState action_size (advisor.act a handle state 0) state).drop
        state_size).count 1 = 1 := by
  revert ha
  generalize advisor.act a handle state 0 = adv
  intro ha
  subst hs
  refine ⟨?_, ?_, ?_, ?_, ?_⟩
  · simp [extendState]
  · exact List.take_left _ _
  · rw [extendState, List.drop_left, onehot_getD _ _ _ ha]
    simp
  · intro j hj hne
    rw [extendState, List.drop_left, onehot_getD _ _ _ hj]
    simp [Ne.symm hne]
  · rw [extendState, List.drop_left]
    exact onehot_count_one _ _ ha

/-- Concrete instance of `augmented_state_one_hot`: raw state
`[2, 3]`, three actions, advisor suggestion `1`. -/
theorem augmented_state_one_hot_witness :
    (extendState 3 (advisorEx.act () 0 [2, 3] 0) [2, 3]).length = 2 + 3 ∧
    (extendState 3 (advisorEx.act () 0 [2, 3] 0) [2, 3]).take 2 = [2, 3] ∧
    ((extendState 3 (advisorEx.act () 0 [2, 3] 0) [2, 3]).drop 2).getD
        (advisorEx.act () 0 [2, 3] 0) 0 = 1 ∧
    (∀ j, j < 3 → j ≠ advisorEx.act () 0 [2, 3] 0 →
      ((extendState 3 (advisorEx.act () 0 [2, 3] 0) [2, 3]).drop 2).getD
        j 0 = 0) ∧
    ((extendState 3 (advisorEx.act () 0 [2, 3] 0) [2, 3]).drop 2).count 1
        = 1 :=
  augmented_state_one_hot advisorEx () 3 2 0 [2, 3] rfl (by decide)

/-- Claim C7, counterexample: `MultiPolicy.reset` does not invoke the
advisor first — the source calls `self.ppo_policy.reset()` before
`self.deadlock_avoidance_policy.reset()`. -/
theorem multiPolicy_reset_not_advisor_first :
    MultiPolicy.resetOrder ≠ [SubPolicy.advisor, SubPolicy.ppo] := by
  decide

/-- Claim C7, amended: each of the six broadcast operations invokes
both sub-policies exactly once, with `load`/`save`/`reset`/`test`
calling the PPO core first and the advisor second, while
`start_step`/`end_step` call the advisor first and the PPO core
second. -/
theorem multiPolicy_broadcast_orders :
    (MultiPolicy.loadOrder = [SubPolicy.ppo, SubPolicy.advisor] ∧
     MultiPolicy.saveOrder = [SubPolicy.ppo, SubPolicy.advisor] ∧
     MultiPolicy.resetOrder = [SubPolicy.ppo, SubPolicy.advisor] ∧
     MultiPolicy.testOrder = [SubPolicy.ppo, SubPolicy.advisor]) ∧
    (MultiPolicy.start_stepOrder = [SubPolicy.advisor, SubPolicy.ppo] ∧
     MultiPolicy.end_stepOrder = [SubPolicy.advisor, SubPolicy.ppo]) ∧
    (∀ l ∈ [MultiPolicy.loadOrder, MultiPolicy.saveOrder,
        MultiPolicy.resetOrder, MultiPolicy.testOrder,
        MultiPolicy.start_stepOrder, MultiPolicy.end_stepOrder],
      l.count SubPolicy.advisor = 1 ∧ l.count SubPolicy.ppo = 1) := by
  decide

/-- Claim C9: `PPOAgent.act` ignores its exploration parameter
entirely — for any two values of `eps` (including `none`, the
default), the sampled action is the same function of the actor's
distribution at the state, so the action is always drawn from the
actor network's categorical distribution with no epsilon blending. -/
theorem ppo_act_independent_of_eps (fw : Blob → List ℚ → List ℚ)
    (sample : List ℚ → ℕ) (m : ActorCriticModel) (state : List ℚ)
    (eps1 eps2 : Option ℚ) :
    PPOAgent.act fw sample m state eps1
        = PPOAgent.act fw sample m state eps2 ∧
    PPOAgent.act fw sample m state eps1
        = sample (get_actor_dist fw m state) :=
  ⟨rfl, rfl⟩

/-- Claim C10: `MultiPolicy.act` overwrites the layer's `loss` field
with the inner PPO core's current loss and changes nothing else: the
layer's own `memory`, the stored sizes, and both owned sub-policy
states are returned unchanged. -/
theorem multiPolicy_act_frame {A P : Type} (advisor : AdvisorPolicy A)
    (core : InnerPPO P) (s : MultiPolicyState A P) (handle : ℕ)
    (state : List ℚ) (eps : ℚ) :
    (MultiPolicy.act advisor core s handle state eps).1.loss
        = core.loss s.ppo_policy ∧
    (MultiPolicy.act advisor core s handle state eps).1.memory = s.memory ∧
    (MultiPolicy.act advisor core s handle state eps).1.state_size
        = s.state_size ∧
    (MultiPolicy.act advisor core s handle state eps).1.action_size
        = s.action_size ∧
    (MultiPolicy.act advisor core s handle state eps).1.deadlock_avoidance_policy
        = s.deadlock_avoidance_policy ∧
    (MultiPolicy.act advisor core s handle state eps).1.ppo_policy
        = s.ppo_policy :=
  ⟨rfl, rfl, rfl, rfl, rfl, rfl⟩
